import Mathlib

/-!
Verification of the word-stream decoder and calibration-table builder of
`Code/cluster.py` (ess-dg/MultiGrid24_STF_MUX_measurements).

The embedding follows the source file: the mask/pattern constants, the
inline word classification and event assembly of `cluster_data`
(lines 51-140), and the `get_ADC_to_Ch` calibration-table builder
(lines 162-187).  Python exceptions (IndexError on list indexing,
KeyError on dict lookup) are modelled by `Option`: a step that raises
returns `none` and the whole decode aborts.
-/

namespace Cluster

/-! ## Masks and patterns (`cluster.py` lines 15-44) -/

def SignatureMask : ℕ := 0xC0000000
def SubSignatureMask : ℕ := 0x3FE00000
def ModuleMask : ℕ := 0x00FF0000
def ChannelMask : ℕ := 0x001F0000
def ADCMask : ℕ := 0x00003FFF
def ExTsMask : ℕ := 0x0000FFFF
def TimeStampMask : ℕ := 0x3FFFFFFF
def WordCountMask : ℕ := 0x00000FFF

def Header : ℕ := 0x40000000
def Data : ℕ := 0x00000000
def EoE : ℕ := 0xC0000000

def DataEvent : ℕ := 0x04000000
def DataExTs : ℕ := 0x04800000

def ChannelShift : ℕ := 16
def ModuleShift : ℕ := 16
def ExTsShift : ℕ := 30

/-! ## Bit-field arithmetic lemmas

Each mask used by the source is a contiguous run of bits, so masking and
shifting has a pure div/mod description.  These lemmas let the theorems
state field extraction in mask-independent arithmetic form. -/

theorem and_mask_run (w l n : ℕ) :
    w &&& ((2 ^ n - 1) <<< l) = ((w >>> l) % 2 ^ n) <<< l := by
  apply Nat.eq_of_testBit_eq
  intro i
  simp only [Nat.testBit_and, Nat.testBit_shiftLeft, Nat.testBit_two_pow_sub_one,
    Nat.testBit_mod_two_pow, Nat.testBit_shiftRight]
  by_cases h : l ≤ i
  · have hi : l + (i - l) = i := by omega
    rw [hi]
    cases w.testBit i <;> cases hd : decide (i - l < n) <;> simp [h, hd]
  · simp [h]

theorem and_signature (w : ℕ) : w &&& SignatureMask = w / 2 ^ 30 % 4 * 2 ^ 30 := by
  have h : SignatureMask = (2 ^ 2 - 1) <<< 30 := by decide
  rw [h, and_mask_run, Nat.shiftLeft_eq, Nat.shiftRight_eq_div_pow]
  norm_num

theorem signature_header_iff (w : ℕ) :
    w &&& SignatureMask = Header ↔ w / 2 ^ 30 % 4 = 1 := by
  rw [and_signature]
  constructor
  · intro h
    have : w / 2 ^ 30 % 4 * 2 ^ 30 = 1 * 2 ^ 30 := by rw [h]; decide
    exact Nat.eq_of_mul_eq_mul_right (by norm_num) this
  · intro h; rw [h]; decide

theorem signature_data_iff (w : ℕ) :
    w &&& SignatureMask = Data ↔ w / 2 ^ 30 % 4 = 0 := by
  rw [and_signature]
  constructor
  · intro h
    have : w / 2 ^ 30 % 4 * 2 ^ 30 = 0 * 2 ^ 30 := by rw [h]; decide
    exact Nat.eq_of_mul_eq_mul_right (by norm_num) this
  · intro h; rw [h]; decide

theorem signature_eoe_iff (w : ℕ) :
    w &&& SignatureMask = EoE ↔ w / 2 ^ 30 % 4 = 3 := by
  rw [and_signature]
  constructor
  · intro h
    have : w / 2 ^ 30 % 4 * 2 ^ 30 = 3 * 2 ^ 30 := by rw [h]; decide
    exact Nat.eq_of_mul_eq_mul_right (by norm_num) this
  · intro h; rw [h]; decide

theorem channel_field (w : ℕ) :
    (w &&& ChannelMask) >>> ChannelShift = w / 2 ^ 16 % 32 := by
  have h : ChannelMask = (2 ^ 5 - 1) <<< 16 := by decide
  rw [h, and_mask_run, Nat.shiftLeft_eq, ChannelShift, Nat.shiftRight_eq_div_pow,
    Nat.shiftRight_eq_div_pow, Nat.mul_div_cancel _ (by norm_num : (0:ℕ) < 2 ^ 16)]
  norm_num

theorem module_field (w : ℕ) :
    (w &&& ModuleMask) >>> ModuleShift = w / 2 ^ 16 % 256 := by
  have h : ModuleMask = (2 ^ 8 - 1) <<< 16 := by decide
  rw [h, and_mask_run, Nat.shiftLeft_eq, ModuleShift, Nat.shiftRight_eq_div_pow,
    Nat.shiftRight_eq_div_pow, Nat.mul_div_cancel _ (by norm_num : (0:ℕ) < 2 ^ 16)]
  norm_num

theorem adc_field (w : ℕ) : w &&& ADCMask = w % 2 ^ 14 := by
  have h : ADCMask = 2 ^ 14 - 1 := by decide
  rw [h, Nat.and_pow_two_sub_one_eq_mod]

theorem tof_field (w : ℕ) : w &&& TimeStampMask = w % 2 ^ 30 := by
  have h : TimeStampMask = 2 ^ 30 - 1 := by decide
  rw [h, Nat.and_pow_two_sub_one_eq_mod]

/-! ## Word classification

The source classifies each word inline in `cluster_data` (lines 109, 115,
128) by comparing `word & SignatureMask` against the `Header` / `Data` /
`EoE` patterns, and extracts the fields with the masks and shifts of
lines 111, 117, 118, 130.  `classify` is that per-word classification
factored out; `WordKind` is its result. -/

inductive WordKind where
  | header (module : ℕ)
  | data (channel : ℕ) (adc : ℕ)
  | endOfEvent (timeOfFlight : ℕ)
  | other
  deriving DecidableEq, Repr

def classify (word : ℕ) : WordKind :=
  if word &&& SignatureMask = Header then
    .header ((word &&& ModuleMask) >>> ModuleShift)
  else if word &&& SignatureMask = Data then
    .data ((word &&& ChannelMask) >>> ChannelShift) (word &&& ADCMask)
  else if word &&& SignatureMask = EoE then
    .endOfEvent (word &&& TimeStampMask)
  else
    .other

/-! ## Layout configuration (`cluster_data` lines 85-94)

`window.MG_CNCS.isChecked()` selects the reduced 8-attribute layout,
otherwise the full 12-attribute layout is used. -/

def reducedAttributes : List String :=
  ["wADC_1", "wADC_2", "wChADC_1", "wChADC_2",
   "gADC_1", "gADC_2", "gChADC_1", "gChADC_2"]

def reducedChannels : List String := ["wCh_1", "wCh_2", "gCh_1", "gCh_2"]

def fullAttributes : List String :=
  ["gADC_1", "gADC_2", "gChADC_1", "gChADC_2",
   "wADC_1", "wADC_2", "wChADC_1", "wChADC_2",
   "wADC_3", "wADC_4", "wChADC_3", "wChADC_4"]

def fullChannels : List String :=
  ["wCh_1", "wCh_2", "wCh_3", "wCh_4", "gCh_1", "gCh_2"]

def layoutAttributes (isCNCS : Bool) : List String :=
  if isCNCS then reducedAttributes else fullAttributes

def layoutChannels (isCNCS : Bool) : List String :=
  if isCNCS then reducedChannels else fullChannels

/-- Python string slicing `s[:n]` on the `List Char` model of `String`. -/
def strTake (s : String) (n : ℕ) : String := String.mk (s.data.take n)

/-- Python string slicing `s[-n:]` (for `n ≤ len(s)`; like Python, a short
string is returned whole). -/
def strTakeRight (s : String) (n : ℕ) : String :=
  String.mk (s.data.drop (s.data.length - n))

/-- The `wires_or_grids` dict of line 103, looked up at line 122 with the
attribute's first character; a key outside {"w", "g"} would raise
`KeyError`, modelled by `none`. -/
inductive Group where
  | Wires
  | Grids
  deriving DecidableEq, Repr

def wires_or_grids (s : String) : Option Group :=
  if s = "w" then some .Wires else if s = "g" then some .Grids else none

/-! ## Calibration table representation

`ADC_to_Ch` is a Python dict-of-dicts `{'Wires': {...}, 'Grids': {...}}`
with integer keys; an absent key raises `KeyError` (modelled by `none`). -/

def Dict : Type := ℤ → Option ℤ

def dictInsert (d : Dict) (k v : ℤ) : Dict :=
  fun q => if q = k then some v else d q

/-- `{i: -1 for i in range(4096)}` (`get_ADC_to_Ch` lines 168-169). -/
def emptyADCDict : Dict :=
  fun q => if 0 ≤ q ∧ q < 4096 then some (-1) else none

structure ADCTab where
  wires : Dict
  grids : Dict

def tabGet (t : ADCTab) : Group → Dict
  | .Wires => t.wires
  | .Grids => t.grids

/-! ## Event assembly state (`cluster_data` lines 95-140)

The source pre-allocates one zero row per input word and writes every
field of the event under construction at array position `index`; rows
`[0:index]` are kept at the end.  Since each row is written only while it
is the current row, this is embedded as the list of committed rows plus
the current row, with `isOpen` as in the source. -/

def Row : Type := String → ℤ

def zeroRow : Row := fun _ => 0

def rowSet (r : Row) (k : String) (v : ℤ) : Row :=
  fun q => if q = k then v else r q

structure DecState where
  committed : List Row
  current : Row
  isOpen : Bool

def initState : DecState := { committed := [], current := zeroRow, isOpen := false }

/-- The body of the Data branch of the word loop (lines 115-127), as a
function of the already-extracted `Channel` and `ADC` fields.  `none`
models an uncaught Python exception: `IndexError` from
`attributes[Channel]` (line 119) or `KeyError` from
`wires_or_grids[attribute[:1]]` (line 122) or `ADC_to_Ch[w_or_g][ADC]`
(line 125). -/
def dataProcess (attributes : List String) (tab : ADCTab) (st : DecState)
    (Channel ADC : ℕ) : Option DecState :=
  match attributes.get? Channel with
  | none => none
  | some attrName =>
    let r1 := rowSet st.current attrName ADC
    match wires_or_grids (strTake attrName 1) with
    | none => none
    | some w_or_g =>
      if attrName.data.length = 8 then
        match tabGet tab w_or_g ADC with
        | none => none
        | some physical_Ch =>
          let channel_attr := strTake attrName 3 ++ strTakeRight attrName 2
          some { st with current := rowSet r1 channel_attr physical_Ch }
      else
        some { st with current := r1 }

/-- One iteration of the word loop of `cluster_data` (lines 108-134). -/
def clusterStep (attributes : List String) (tab : ADCTab) (st : DecState)
    (word : ℕ) : Option DecState :=
  if word &&& SignatureMask = Header then
    let Module : ℕ := (word &&& ModuleMask) >>> ModuleShift
    some { st with current := rowSet st.current "Module" Module, isOpen := true }
  else if word &&& SignatureMask = Data ∧ st.isOpen = true then
    dataProcess attributes tab st ((word &&& ChannelMask) >>> ChannelShift)
      (word &&& ADCMask)
  else if word &&& SignatureMask = EoE ∧ st.isOpen = true then
    let ToF : ℕ := word &&& TimeStampMask
    some { committed := st.committed ++ [rowSet st.current "ToF" ToF],
           current := zeroRow, isOpen := false }
  else
    some st

/-- The event-assembly loop of `cluster_data` plus the final truncation to
rows `[0:index]` (lines 108-140): the committed rows, in commit order. -/
def cluster_data (isCNCS : Bool) (tab : ADCTab) (data : List ℕ) :
    Option (List Row) :=
  (data.foldlM (clusterStep (layoutAttributes isCNCS) tab) initState).map
    (fun st => st.committed)

/-! ## Calibration table builder (`get_ADC_to_Ch`, lines 162-187)

Delimiters are floating-point values read from a spreadsheet; they are
embedded as rationals.  `int(round(x))` uses Python/numpy rounding,
which rounds to the nearest integer with ties to the nearest even
integer; `intRound` is that function on ℚ. -/

/-- Python `int(round(x))`: nearest integer, ties to even. -/
def intRound (q : ℚ) : ℤ :=
  let f := q.floor
  let r := q - f
  if r < 1 / 2 then f
  else if 1 / 2 < r then f + 1
  else if f % 2 = 0 then f else f + 1

/-- `np.linspace(start, stop, layers + 1)` (line 176). -/
def smallDelimiters (start stop : ℚ) (layers : ℕ) : List ℚ :=
  (List.range (layers + 1)).map fun t => start + t * (stop - start) / layers

/-- `for k in np.arange(lo, hi, 1): d[k] = ch` (lines 184-185); the fuel
argument is `(hi - lo).toNat`, so an empty range assigns nothing. -/
def assignRange (d : Dict) (ch lo : ℤ) : ℕ → Dict
  | 0 => d
  | n + 1 => assignRange (dictInsert d lo ch) ch (lo + 1) n

/-- The inner loop over `enumerate(small_delimiters[1:])` (lines 178-186),
threading `previous_value`.  `channel_mapping[key][i*layers+j]` raises
`IndexError` when out of range, modelled by `none`. -/
def innerLoop (mapping : List ℤ) (layers i : ℕ) : ℕ → ℚ → List ℚ → Dict → Option Dict
  | _, _, [], d => some d
  | j, previous, value :: rest, d =>
    match mapping.get? (i * layers + j) with
    | none => none
    | some channel =>
      let lo := intRound previous
      let hi := intRound value
      innerLoop mapping layers i (j + 1) value rest
        (assignRange d channel lo (hi - lo).toNat)

/-- The body of the loop over one delimiter pair `(start, stop)`
(lines 173-186).  Line 175 reads `channel_mapping[key][i]` before the
inner loop (its value is immediately overwritten, but an out-of-range
index still raises). -/
def processRange (mapping : List ℤ) (layers i : ℕ) (start stop : ℚ)
    (d : Dict) : Option Dict :=
  match mapping.get? i with
  | none => none
  | some _ =>
    match smallDelimiters start stop layers with
    | [] => some d
    | p0 :: rest => innerLoop mapping layers i 0 p0 rest d

/-- The loop `for i, (start, stop) in enumerate(delimiters)` (line 173). -/
def buildGroupAux (mapping : List ℤ) (layers : ℕ) :
    ℕ → List (ℚ × ℚ) → Dict → Option Dict
  | _, [], d => some d
  | i, (start, stop) :: rest, d =>
    match processRange mapping layers i start stop d with
    | none => none
    | some d₁ => buildGroupAux mapping layers (i + 1) rest d₁

/-- Build the per-group 4096-slot table, starting from the all-(-1) dict. -/
def buildGroup (delims : List (ℚ × ℚ)) (mapping : List ℤ) (layers : ℕ)
    (d : Dict) : Option Dict :=
  buildGroupAux mapping layers 0 delims d

/-- `get_ADC_to_Ch` (lines 162-187): `layers_dict = {'Wires': 16,
'Grids': 12}`; the delimiter table and channel mappings are external
spreadsheet inputs, taken here as arguments.  The dict iteration order
is Wires first, then Grids. -/
def get_ADC_to_Ch (wireDelims gridDelims : List (ℚ × ℚ))
    (wireMap gridMap : List ℤ) : Option ADCTab :=
  match buildGroup wireDelims wireMap 16 emptyADCDict with
  | none => none
  | some w =>
    match buildGroup gridDelims gridMap 12 emptyADCDict with
    | none => none
    | some g => some { wires := w, grids := g }

/-! ## Stream predicates used by the testable properties

The spec's well-formedness condition — "every Header eventually followed
by exactly one EndOfEvent before the next Header" — as an automaton over
the stream: `waiting` means the last Header has not yet received its
EndOfEvent; a Header while `waiting`, a second EndOfEvent before the
next Header, or a stream ending in `waiting` violate the condition.  An
EndOfEvent before the first Header constrains no Header, so (read
literally) it is allowed. -/

inductive WFState where
  | noHeader
  | waiting
  | satisfied
  deriving DecidableEq, Repr

def wfStep (s : WFState) (w : ℕ) : Option WFState :=
  if w &&& SignatureMask = Header then
    match s with
    | .waiting => none
    | _ => some .waiting
  else if w &&& SignatureMask = EoE then
    match s with
    | .noHeader => some .noHeader
    | .waiting => some .satisfied
    | .satisfied => none
  else
    some s

def wellFormedB (data : List ℕ) : Bool :=
  match data.foldlM wfStep WFState.noHeader with
  | some .waiting => false
  | some _ => true
  | none => false

def wellFormed (data : List ℕ) : Prop := wellFormedB data = true

/-- `true` when no EndOfEvent-signature word occurs before the first
Header-signature word of the stream. -/
def noLeadingEoEGo (seen : Bool) : List ℕ → Bool
  | [] => true
  | w :: ws =>
    if w &&& SignatureMask = Header then noLeadingEoEGo true ws
    else if w &&& SignatureMask = EoE then seen && noLeadingEoEGo seen ws
    else noLeadingEoEGo seen ws

def noLeadingEoE (data : List ℕ) : Bool := noLeadingEoEGo false data

def isEoEWord (w : ℕ) : Bool := decide (w &&& SignatureMask = EoE)

/-- The time-of-flight fields of the EndOfEvent words of a stream, in
stream order. -/
def eoeToFs (data : List ℕ) : List ℤ :=
  (data.filter isEoEWord).map (fun w => ((w &&& TimeStampMask : ℕ) : ℤ))

/-! ## Concrete fixtures used by witnesses and counterexamples -/

/-- The all-unmapped calibration table (what `get_ADC_to_Ch` returns when
both delimiter tables are empty). -/
def exampleTab : ADCTab := { wires := emptyADCDict, grids := emptyADCDict }

/-- The result of `buildGroup [(0, 12)] [10, 11, 12] 3` on the initial
all-(-1) dict: slots 0-3 map to channel 10, 4-7 to 11, 8-11 to 12. -/
def exampleWires : Dict :=
  assignRange (assignRange (assignRange emptyADCDict 10 0 4) 11 4 4) 12 8 4

def exampleWiresTab : ADCTab := { wires := exampleWires, grids := emptyADCDict }

/-- An open decoder state whose in-progress row already holds
`wADC_1 = 9` (as after `[Header, Data channel 0 adc 9]`). -/
def exampleOpenState : DecState :=
  { committed := [], current := rowSet zeroRow "wADC_1" 9, isOpen := true }

/-! ## Helper lemmas about the decoder step -/

theorem clusterStep_header (attrs : List String) (tab : ADCTab) (st : DecState)
    (w : ℕ) (h : w &&& SignatureMask = Header) :
    clusterStep attrs tab st w =
      some { st with
             current := rowSet st.current "Module"
               (((w &&& ModuleMask) >>> ModuleShift : ℕ) : ℤ),
             isOpen := true } := by
  unfold clusterStep
  rw [if_pos h]

theorem clusterStep_data_open (attrs : List String) (tab : ADCTab)
    (st : DecState) (w : ℕ) (h : w &&& SignatureMask = Data)
    (hopen : st.isOpen = true) :
    clusterStep attrs tab st w =
      dataProcess attrs tab st ((w &&& ChannelMask) >>> ChannelShift)
        (w &&& ADCMask) := by
  unfold clusterStep
  rw [if_neg (by rw [h]; decide), if_pos ⟨h, hopen⟩]

theorem clusterStep_eoe_open (attrs : List String) (tab : ADCTab)
    (st : DecState) (w : ℕ) (h : w &&& SignatureMask = EoE)
    (hopen : st.isOpen = true) :
    clusterStep attrs tab st w =
      some { committed :=
               st.committed ++ [rowSet st.current "ToF"
                 (((w &&& TimeStampMask : ℕ)) : ℤ)],
             current := zeroRow, isOpen := false } := by
  unfold clusterStep
  rw [if_neg (by rw [h]; decide), if_neg (by rw [h]; exact fun hc => by cases hc.1),
    if_pos ⟨h, hopen⟩]

theorem clusterStep_effects (attrs : List String) (tab : ADCTab)
    (st st₁ : DecState) (w : ℕ)
    (hh : ¬(w &&& SignatureMask = Header)) (he : ¬(w &&& SignatureMask = EoE))
    (h : clusterStep attrs tab st w = some st₁) :
    st₁.committed = st.committed ∧ st₁.isOpen = st.isOpen := by
  unfold clusterStep at h
  rw [if_neg hh] at h
  by_cases hd : w &&& SignatureMask = Data ∧ st.isOpen = true
  · rw [if_pos hd] at h
    unfold dataProcess at h
    split at h
    · cases h
    · rename_i attrName _
      split at h
      · cases h
      · split at h
        · split at h
          · cases h
          · cases h
            exact ⟨rfl, hd.2.symm ▸ rfl⟩
        · cases h
          exact ⟨rfl, rfl⟩
  · rw [if_neg hd, if_neg (fun hc => he hc.1)] at h
    cases h
    exact ⟨rfl, rfl⟩

theorem clusterStep_committed_nonEoE (attrs : List String) (tab : ADCTab)
    (st st₁ : DecState) (w : ℕ)
    (he : ¬(w &&& SignatureMask = EoE))
    (h : clusterStep attrs tab st w = some st₁) :
    st₁.committed = st.committed := by
  by_cases hh : w &&& SignatureMask = Header
  · rw [clusterStep_header attrs tab st w hh] at h
    cases h
    rfl
  · exact (clusterStep_effects attrs tab st st₁ w hh he h).1

/-! ## Helper lemmas about the calibration builder -/

theorem assignRange_spec (n : ℕ) : ∀ (d : Dict) (ch lo k : ℤ),
    assignRange d ch lo n k =
      if lo ≤ k ∧ k < lo + (n : ℤ) then some ch else d k := by
  induction n with
  | zero =>
    intro d ch lo k
    simp only [assignRange]
    rw [if_neg (by omega)]
  | succ m ih =>
    intro d ch lo k
    simp only [assignRange]
    rw [ih]
    unfold dictInsert
    split_ifs <;> first | rfl | omega

theorem assignRange_isSome (n : ℕ) (d : Dict) (ch lo k : ℤ)
    (h : (d k).isSome = true) : ((assignRange d ch lo n) k).isSome = true := by
  rw [assignRange_spec]
  split_ifs
  · rfl
  · exact h

theorem innerLoop_isSome (mapping : List ℤ) (layers i : ℕ) :
    ∀ (rest : List ℚ) (j : ℕ) (prev : ℚ) (d d₁ : Dict) (k : ℤ),
      innerLoop mapping layers i j prev rest d = some d₁ →
      (d k).isSome = true → (d₁ k).isSome = true := by
  intro rest
  induction rest with
  | nil =>
    intro j prev d d₁ k h hk
    cases h
    exact hk
  | cons value rest ih =>
    intro j prev d d₁ k h hk
    unfold innerLoop at h
    split at h
    · cases h
    · exact ih (j + 1) value _ d₁ k h (assignRange_isSome _ _ _ _ _ hk)

theorem processRange_isSome (mapping : List ℤ) (layers i : ℕ)
    (start stop : ℚ) (d d₁ : Dict) (k : ℤ)
    (h : processRange mapping layers i start stop d = some d₁)
    (hk : (d k).isSome = true) : (d₁ k).isSome = true := by
  unfold processRange at h
  split at h
  · cases h
  · split at h
    · cases h
      exact hk
    · exact innerLoop_isSome mapping layers i _ 0 _ d d₁ k h hk

theorem buildGroupAux_isSome (mapping : List ℤ) (layers : ℕ) :
    ∀ (delims : List (ℚ × ℚ)) (i : ℕ) (d d₁ : Dict) (k : ℤ),
      buildGroupAux mapping layers i delims d = some d₁ →
      (d k).isSome = true → (d₁ k).isSome = true := by
  intro delims
  induction delims with
  | nil =>
    intro i d d₁ k h hk
    cases h
    exact hk
  | cons p rest ih =>
    intro i d d₁ k h hk
    unfold buildGroupAux at h
    split at h
    · cases h
    · rename_i d₂ hp
      exact ih (i + 1) d₂ d₁ k h (processRange_isSome mapping layers i p.1 p.2 d d₂ k hp hk)

theorem buildGroup_isSome (delims : List (ℚ × ℚ)) (mapping : List ℤ)
    (layers : ℕ) (d d₁ : Dict) (k : ℤ)
    (h : buildGroup delims mapping layers d = some d₁)
    (hk : (d k).isSome = true) : (d₁ k).isSome = true :=
  buildGroupAux_isSome mapping layers delims 0 d d₁ k h hk

theorem emptyADCDict_isSome (k : ℤ) (h0 : 0 ≤ k) (h4 : k < 4096) :
    (emptyADCDict k).isSome = true := by
  unfold emptyADCDict
  rw [if_pos ⟨h0, h4⟩]
  rfl

/-! ## Helper lemmas about the decode fold -/

theorem foldlM_option_append {α β : Type} (f : β → α → Option β) (l₁ l₂ : List α)
    (b : β) (c : β) :
    (l₁ ++ l₂).foldlM f b = some c ↔
      ∃ m, l₁.foldlM f b = some m ∧ l₂.foldlM f m = some c := by
  rw [List.foldlM_append]
  exact Option.bind_eq_some

theorem foldlM_option_cons {α β : Type} (f : β → α → Option β) (a : α)
    (l : List α) (b : β) (c : β) :
    (a :: l).foldlM f b = some c ↔
      ∃ m, f b a = some m ∧ l.foldlM f m = some c := by
  rw [List.foldlM_cons]
  exact Option.bind_eq_some

/-- Processing a span containing no EndOfEvent-signature word commits no
row, whatever else it does. -/
theorem foldlM_committed_nonEoE (attrs : List String) (tab : ADCTab) :
    ∀ (ws : List ℕ) (st st' : DecState),
      ws.foldlM (clusterStep attrs tab) st = some st' →
      (∀ w ∈ ws, ¬(w &&& SignatureMask = EoE)) →
      st'.committed = st.committed := by
  intro ws
  induction ws with
  | nil =>
    intro st st' h _
    cases h
    rfl
  | cons w ws ih =>
    intro st st' h hno
    obtain ⟨st₁, hstep, hrest⟩ := (foldlM_option_cons _ _ _ _ _).1 h
    rw [ih st₁ st' hrest (fun v hv => hno v (List.mem_cons_of_mem w hv))]
    exact clusterStep_committed_nonEoE attrs tab st st₁ w
      (hno w (List.mem_cons_self w ws)) hstep

/-- Synchronised induction between the well-formedness automaton and the
decoder: along a stream with no EndOfEvent before the first Header, the
automaton is `waiting` exactly when the decoder is open, so every
EndOfEvent word commits exactly one row, whose `ToF` field is that
word's timestamp field. -/
theorem wfFold_sync (attrs : List String) (tab : ADCTab) :
    ∀ (ws : List ℕ) (q q' : WFState) (st st' : DecState),
      ws.foldlM wfStep q = some q' →
      noLeadingEoEGo (decide (q ≠ WFState.noHeader)) ws = true →
      ws.foldlM (clusterStep attrs tab) st = some st' →
      (st.isOpen = true ↔ q = WFState.waiting) →
      st'.committed.length = st.committed.length + ws.countP isEoEWord ∧
      st'.committed.map (fun r => r "ToF") =
        st.committed.map (fun r => r "ToF") ++ eoeToFs ws := by
  intro ws
  induction ws with
  | nil =>
    intro q q' st st' hq hn hs hinv
    cases hq
    cases hs
    simp [eoeToFs]
  | cons w ws ih =>
    intro q q' st st' hq hn hs hinv
    obtain ⟨q₁, hq₁, hqrest⟩ := (foldlM_option_cons _ _ _ _ _).1 hq
    obtain ⟨st₁, hs₁, hsrest⟩ := (foldlM_option_cons _ _ _ _ _).1 hs
    by_cases hh : w &&& SignatureMask = Header
    · have hne : ¬(w &&& SignatureMask = EoE) := by rw [hh]; decide
      unfold wfStep at hq₁
      rw [if_pos hh] at hq₁
      unfold noLeadingEoEGo at hn
      rw [if_pos hh] at hn
      rw [clusterStep_header attrs tab st w hh] at hs₁
      cases hs₁
      cases q with
      | waiting => cases hq₁
      | noHeader =>
        cases hq₁
        obtain ⟨h1, h2⟩ := ih WFState.waiting q' _ st' hqrest hn hsrest (by simp)
        refine ⟨?_, ?_⟩
        · rw [h1, List.countP_cons]
          simp [isEoEWord, hne]
        · rw [h2]
          simp [eoeToFs, isEoEWord, hne]
      | satisfied =>
        cases hq₁
        obtain ⟨h1, h2⟩ := ih WFState.waiting q' _ st' hqrest hn hsrest (by simp)
        refine ⟨?_, ?_⟩
        · rw [h1, List.countP_cons]
          simp [isEoEWord, hne]
        · rw [h2]
          simp [eoeToFs, isEoEWord, hne]
    · by_cases he : w &&& SignatureMask = EoE
      · unfold wfStep at hq₁
        rw [if_neg hh, if_pos he] at hq₁
        unfold noLeadingEoEGo at hn
        rw [if_neg hh, if_pos he] at hn
        cases q with
        | noHeader => simp at hn
        | satisfied => cases hq₁
        | waiting =>
          cases hq₁
          have hopen : st.isOpen = true := hinv.2 rfl
          rw [clusterStep_eoe_open attrs tab st w he hopen] at hs₁
          cases hs₁
          have hn' : noLeadingEoEGo true ws = true := by simpa using hn
          obtain ⟨h1, h2⟩ := ih WFState.satisfied q' _ st' hqrest hn' hsrest (by simp)
          refine ⟨?_, ?_⟩
          · rw [h1, List.countP_cons]
            simp only [List.length_append, List.length_cons, List.length_nil]
            simp [isEoEWord, he]
            omega
          · rw [h2]
            simp only [List.map_append, List.map_cons, List.map_nil]
            rw [List.append_assoc]
            congr 1
            simp [eoeToFs, isEoEWord, he, rowSet]
      · unfold wfStep at hq₁
        rw [if_neg hh, if_neg he] at hq₁
        cases hq₁
        unfold noLeadingEoEGo at hn
        rw [if_neg hh, if_neg he] at hn
        obtain ⟨hcomm, hop⟩ := clusterStep_effects attrs tab st st₁ w hh he hs₁
        obtain ⟨h1, h2⟩ := ih q q' st₁ st' hqrest hn hsrest (by rw [hop]; exact hinv)
        refine ⟨?_, ?_⟩
        · rw [h1, hcomm, List.countP_cons]
          simp [isEoEWord, he]
        · rw [h2, hcomm]
          simp [eoeToFs, isEoEWord, he]

/-! ## Claim theorems -/

/-- Claim C1: word classification is a pure total function of the 32-bit
word alone, deciding the kind solely by the top-2-bit signature
(`01` → Header, `00` → Data, `11` → EndOfEvent, `10` → Other), with
bit-exact fields: `module = (w & 0x00FF0000) >> 16 = w / 2^16 % 256`,
`channel = (w & 0x001F0000) >> 16 = w / 2^16 % 32`,
`adc = w & 0x3FFF = w % 2^14`, and
`timeOfFlight = w & 0x3FFFFFFF = w % 2^30`.  The four cases of
`w / 2^30` exhaust all 32-bit words, so every word classifies to exactly
one variant. -/
theorem claim1_classify_bit_exact (w : ℕ) (hw : w < 2 ^ 32) :
    (w / 2 ^ 30 = 1 → classify w = WordKind.header (w / 2 ^ 16 % 256)) ∧
    (w / 2 ^ 30 = 0 → classify w = WordKind.data (w / 2 ^ 16 % 32) (w % 2 ^ 14)) ∧
    (w / 2 ^ 30 = 3 → classify w = WordKind.endOfEvent (w % 2 ^ 30)) ∧
    (w / 2 ^ 30 = 2 → classify w = WordKind.other) := by
  refine ⟨fun h => ?_, fun h => ?_, fun h => ?_, fun h => ?_⟩
  · unfold classify
    rw [if_pos ((signature_header_iff w).2 (by omega)), module_field]
  · unfold classify
    rw [if_neg (fun hc => by have := (signature_header_iff w).1 hc; omega),
      if_pos ((signature_data_iff w).2 (by omega)), channel_field, adc_field]
  · unfold classify
    rw [if_neg (fun hc => by have := (signature_header_iff w).1 hc; omega),
      if_neg (fun hc => by have := (signature_data_iff w).1 hc; omega),
      if_pos ((signature_eoe_iff w).2 (by omega)), tof_field]
  · unfold classify
    rw [if_neg (fun hc => by have := (signature_header_iff w).1 hc; omega),
      if_neg (fun hc => by have := (signature_data_iff w).1 hc; omega),
      if_neg (fun hc => by have := (signature_eoe_iff w).1 hc; omega)]

/-- Witness for C1 at the concrete word `0x40051234` (a Header word with
module `5`). -/
theorem claim1_classify_bit_exact_witness :
    (0x40051234 < 2 ^ 32) ∧
    ((0x40051234 / 2 ^ 30 = 1 →
        classify 0x40051234 = WordKind.header (0x40051234 / 2 ^ 16 % 256)) ∧
      (0x40051234 / 2 ^ 30 = 0 →
        classify 0x40051234 = WordKind.data (0x40051234 / 2 ^ 16 % 32) (0x40051234 % 2 ^ 14)) ∧
      (0x40051234 / 2 ^ 30 = 3 →
        classify 0x40051234 = WordKind.endOfEvent (0x40051234 % 2 ^ 30)) ∧
      (0x40051234 / 2 ^ 30 = 2 → classify 0x40051234 = WordKind.other)) :=
  ⟨by decide, claim1_classify_bit_exact 0x40051234 (by decide)⟩

/-- Counterexample to Claim C2 as stated: the one-word stream
`[0xC0000007]` (a single EndOfEvent) is well-formed in the claim's sense
— "every Header eventually followed by exactly one EndOfEvent before the
next Header" constrains no Header, as there is none — yet the decoder
ignores an EndOfEvent while no event is open, so the output has 0 rows
while the stream has 1 EndOfEvent word. -/
theorem claim2_rows_eq_eoes_cex :
    wellFormedB [0xC0000007] = true ∧
    (cluster_data true exampleTab [0xC0000007]).map List.length = some 0 ∧
    List.countP isEoEWord [0xC0000007] = 1 := by
  decide

/-- Claim C2 as amended: for a well-formed stream in which additionally
no EndOfEvent word precedes the first Header, whenever the decode
completes without raising (the claim presupposes an output table), the
output has exactly one row per EndOfEvent word, and row `i` is the event
closed by the `i`-th EndOfEvent word — in particular the `ToF` column,
read off in row order, is exactly the list of timestamp fields of the
EndOfEvent words in stream order.  No reordering, sorting or
deduplication occurs. -/
theorem claim2_rows_eq_eoes (b : Bool) (tab : ADCTab) (data : List ℕ)
    (rows : List Row) (hwf : wellFormed data)
    (hlead : noLeadingEoE data = true)
    (hdec : cluster_data b tab data = some rows) :
    rows.length = data.countP isEoEWord ∧
    rows.map (fun r => r "ToF") = eoeToFs data := by
  unfold wellFormed wellFormedB at hwf
  unfold cluster_data at hdec
  cases hfold : data.foldlM wfStep WFState.noHeader with
  | none => rw [hfold] at hwf; cases hwf
  | some q' =>
    cases hfold2 : data.foldlM (clusterStep (layoutAttributes b) tab) initState with
    | none => rw [hfold2] at hdec; cases hdec
    | some st' =>
      rw [hfold2] at hdec
      have hrows : rows = st'.committed := by
        cases hdec
        rfl
      obtain ⟨h1, h2⟩ := wfFold_sync (layoutAttributes b) tab data
        WFState.noHeader q' initState st' hfold (by exact hlead) hfold2 (by simp [initState])
      subst hrows
      constructor
      · simpa [initState] using h1
      · simpa [initState] using h2

/-- Witness for C2 on the stream `[Header module 0, EndOfEvent tof 7]`
with the all-unmapped table. -/
theorem claim2_rows_eq_eoes_witness :
    ([rowSet (rowSet zeroRow "Module" 0) "ToF" 7] : List Row).length =
      List.countP isEoEWord [0x40000000, 0xC0000007] ∧
    ([rowSet (rowSet zeroRow "Module" 0) "ToF" 7] : List Row).map
        (fun r => r "ToF") = eoeToFs [0x40000000, 0xC0000007] :=
  claim2_rows_eq_eoes true exampleTab [0x40000000, 0xC0000007]
    [rowSet (rowSet zeroRow "Module" 0) "ToF" 7]
    (show wellFormedB _ = true by decide) (by decide) (by rfl)

/-- Counterexample to Claim C3 as stated: under the reduced layout
(8 attributes) the stream `[Header, Data with channel 8, EndOfEvent]`
does not produce an output table at all — `attributes[8]` raises
`IndexError` and the decode aborts — contradicting "the word is skipped,
processing continues, and the event still commits normally on the next
EndOfEvent". -/
theorem claim3_bad_channel_skipped_cex :
    (cluster_data true exampleTab [0x40000000, 0x00080000, 0xC0000000]).isNone
      = true := by
  decide

/-- Claim C3 as amended: a Data word whose channel field is at or beyond
the length of the layout's attribute list, arriving while an event is
open, raises `IndexError` at `attributes[Channel]` and aborts the whole
decode — the decoder returns no table, skipping nothing. -/
theorem claim3_bad_channel_aborts (b : Bool) (tab : ADCTab)
    (pre post : List ℕ) (w : ℕ) (st : DecState)
    (hpre : pre.foldlM (clusterStep (layoutAttributes b) tab) initState = some st)
    (hopen : st.isOpen = true)
    (hsig : w &&& SignatureMask = Data)
    (hch : (layoutAttributes b).length ≤ (w &&& ChannelMask) >>> ChannelShift) :
    cluster_data b tab (pre ++ w :: post) = none := by
  unfold cluster_data
  rw [List.foldlM_append, hpre]
  have hstep : clusterStep (layoutAttributes b) tab st w = none := by
    rw [clusterStep_data_open _ tab st w hsig hopen]
    unfold dataProcess
    rw [List.get?_eq_none.2 hch]
  simp [hstep]

/-- Witness for C3's amended theorem: with the reduced layout, the Data
word `0x00080000` (channel field 8, one past the last attribute index)
after an opening Header aborts the decode. -/
theorem claim3_bad_channel_aborts_witness :
    cluster_data true exampleTab [0x40000000, 0x00080000, 0xC0000000] = none :=
  claim3_bad_channel_aborts true exampleTab [0x40000000] [0xC0000000]
    0x00080000
    { committed := [], current := rowSet zeroRow "Module" 0, isOpen := true }
    (by rfl) rfl (by decide) (by decide)

/-- Counterexample to Claim C4 as stated: the tables built by
`get_ADC_to_Ch` (here from empty delimiter tables) only have keys
`0..4095`, so the lookup at the 14-bit adc value `4096` fails
(`KeyError`) instead of yielding the sentinel `-1`: decoding
`[Header, Data channel 2 adc 4096, EndOfEvent]` — channel 2 selects the
grouped (8-character) attribute `wChADC_1` — aborts with no output. -/
theorem claim4_adc_lookup_total_cex :
    get_ADC_to_Ch [] [] [] [] = some exampleTab ∧
    tabGet exampleTab Group.Wires 4096 = none ∧
    (cluster_data true exampleTab [0x40000000, 0x00021000, 0xC0000000]).isNone
      = true :=
  ⟨rfl, by decide, by decide⟩

/-- Claim C4 as amended: for every table produced by `get_ADC_to_Ch`
(whatever the delimiter and mapping inputs), the per-group calibration
lookup succeeds for every adc value `0 ≤ adc < 4096` — every slot holds
some value, `-1` when unmapped, and this is not an error.  For
`adc ≥ 4096` the key is absent and the lookup raises `KeyError`,
aborting the decode (see the counterexample). -/
theorem claim4_adc_lookup_total (wd gd : List (ℚ × ℚ)) (wm gm : List ℤ)
    (t : ADCTab) (h : get_ADC_to_Ch wd gd wm gm = some t) (g : Group)
    (k : ℤ) (h0 : 0 ≤ k) (h4 : k < 4096) :
    (tabGet t g k).isSome = true := by
  unfold get_ADC_to_Ch at h
  cases hw : buildGroup wd wm 16 emptyADCDict with
  | none => rw [hw] at h; cases h
  | some dw =>
    rw [hw] at h
    cases hg : buildGroup gd gm 12 emptyADCDict with
    | none => rw [hg] at h; cases h
    | some dg =>
      rw [hg] at h
      cases h
      cases g with
      | Wires =>
        exact buildGroup_isSome wd wm 16 emptyADCDict dw k hw
          (emptyADCDict_isSome k h0 h4)
      | Grids =>
        exact buildGroup_isSome gd gm 12 emptyADCDict dg k hg
          (emptyADCDict_isSome k h0 h4)

/-- Witness for C4's amended theorem: the all-unmapped table built from
empty inputs has an entry at raw value 7 of the Wires group. -/
theorem claim4_adc_lookup_total_witness :
    (tabGet exampleTab Group.Wires 7).isSome = true :=
  claim4_adc_lookup_total [] [] [] [] exampleTab rfl Group.Wires 7
    (by decide) (by decide)

/-- Claim C5: a Header word arriving while an event is already open does
not close or commit the open event: the committed table is unchanged,
the decoder stays open, only the `Module` field of the in-progress row
is overwritten with the new Header's module value (`w / 2^16 % 256`),
and every other field of the open row is left exactly as it was — so
subsequent Data words keep accumulating into the same open event. -/
theorem claim5_second_header_overwrites_module (b : Bool) (tab : ADCTab)
    (st : DecState) (w : ℕ) (hopen : st.isOpen = true) (hw : w < 2 ^ 32)
    (hsig : w / 2 ^ 30 = 1) :
    ∃ st₁, clusterStep (layoutAttributes b) tab st w = some st₁ ∧
      st₁.committed = st.committed ∧
      st₁.isOpen = true ∧
      st₁.current "Module" = ((w / 2 ^ 16 % 256 : ℕ) : ℤ) ∧
      ∀ q, q ≠ "Module" → st₁.current q = st.current q := by
  have hh : w &&& SignatureMask = Header :=
    (signature_header_iff w).2 (by omega)
  refine ⟨_, clusterStep_header (layoutAttributes b) tab st w hh, rfl, rfl, ?_, ?_⟩
  · show rowSet st.current "Module" (((w &&& ModuleMask) >>> ModuleShift : ℕ) : ℤ)
        "Module" = _
    unfold rowSet
    rw [if_pos rfl, module_field]
  · intro q hq
    show rowSet st.current "Module" (((w &&& ModuleMask) >>> ModuleShift : ℕ) : ℤ)
        q = st.current q
    unfold rowSet
    rw [if_neg hq]

/-- Witness for C5: a second Header (module 5) arriving into an open
state whose row already holds `wADC_1 = 9`. -/
theorem claim5_second_header_overwrites_module_witness :
    ∃ st₁, clusterStep (layoutAttributes true) exampleTab exampleOpenState
        0x40050000 = some st₁ ∧
      st₁.committed = exampleOpenState.committed ∧
      st₁.isOpen = true ∧
      st₁.current "Module" = ((0x40050000 / 2 ^ 16 % 256 : ℕ) : ℤ) ∧
      ∀ q, q ≠ "Module" → st₁.current q = exampleOpenState.current q :=
  claim5_second_header_overwrites_module true exampleTab exampleOpenState
    0x40050000 rfl (by decide) (by decide)

/-- Claim C6: a stream that ends while an event is still open — a
trailing span (Header, possibly Data words) containing no EndOfEvent —
contributes no row: the output equals the output for the stream without
the trailing span, so only events closed by an EndOfEvent word appear. -/
theorem claim6_unterminated_discarded (b : Bool) (tab : ADCTab)
    (pre tail : List ℕ) (rows : List Row)
    (h : cluster_data b tab (pre ++ tail) = some rows)
    (hno : ∀ w ∈ tail, ¬(w &&& SignatureMask = EoE)) :
    cluster_data b tab pre = some rows := by
  unfold cluster_data at h ⊢
  cases hfold : (pre ++ tail).foldlM (clusterStep (layoutAttributes b) tab)
      initState with
  | none => rw [hfold] at h; cases h
  | some st' =>
    rw [hfold] at h
    obtain ⟨st₀, hpre, htail⟩ := (foldlM_option_append _ _ _ _ _).1 hfold
    rw [hpre]
    have hco : st'.committed = st₀.committed :=
      foldlM_committed_nonEoE (layoutAttributes b) tab tail st₀ st' htail hno
    cases h
    simp only [Option.map_some']
    rw [hco]

/-- Witness for C6: the stream `[Header module 1, EndOfEvent tof 3]`
followed by the unterminated span `[Header module 0, Data channel 0
adc 5]` yields exactly the one row of the terminated event. -/
theorem claim6_unterminated_discarded_witness :
    cluster_data true exampleTab [0x40010000, 0xC0000003] =
      some [rowSet (rowSet zeroRow "Module" 1) "ToF" 3] :=
  claim6_unterminated_discarded true exampleTab [0x40010000, 0xC0000003]
    [0x40000000, 0x00000005] [rowSet (rowSet zeroRow "Module" 1) "ToF" 3]
    (by rfl) (by decide)

attribute [local semireducible] Rat.mul Rat.add Rat.sub Rat.inv

/-- Counterexample to Claim C7 as stated: the builder's rounding of the
interpolated endpoint `2.5 = linspace(0, 5, 3)[1]` is `2`, not the
`2 + 1 = 3` the claim's half-away-from-zero rule requires; consequently
for delimiters `[(0, 5)]` with 2 layers and mapping `[7, 8]` the slot
`2` belongs to the second sub-interval `[2, 5)` (channel 8) instead of
the first (channel 7) as the claim's rounding would make it. -/
theorem claim7_round_half_away_cex :
    intRound ((2 : ℚ) + 1 / 2) = 2 ∧ ¬(intRound ((2 : ℚ) + 1 / 2) = 2 + 1) ∧
    (buildGroup [((0 : ℚ), 5)] [7, 8] 2 emptyADCDict).map
        (fun d => (List.range 6).map fun k => d (k : ℤ)) =
      some [some 7, some 7, some 8, some 8, some 8, some (-1)] := by
  refine ⟨by decide, by decide, by decide⟩

/-- Claim C7 as amended: each sub-interval endpoint is rounded to the
nearest integer with ties to the nearest even integer (Python/numpy
`round` banker's rounding): an endpoint of exactly `k + 1/2` rounds to
`k` when `k` is even and to `k + 1` when `k` is odd — the result is
always the even neighbour. -/
theorem claim7_round_half_even (k : ℤ) :
    intRound ((k : ℚ) + 1 / 2) = (if k % 2 = 0 then k else k + 1) ∧
    intRound ((k : ℚ) + 1 / 2) % 2 = 0 := by
  have hf : ((k : ℚ) + 1 / 2).floor = k := by
    rw [show ((k : ℚ) + 1 / 2).floor = ⌊(k : ℚ) + 1 / 2⌋ from rfl,
      Int.floor_int_add]
    norm_num
  have hmain : intRound ((k : ℚ) + 1 / 2) = (if k % 2 = 0 then k else k + 1) := by
    unfold intRound
    rw [hf]
    have h1 : ¬((k : ℚ) + 1 / 2 - (k : ℤ) < 1 / 2) := by norm_num
    have h2 : ¬((1 : ℚ) / 2 < (k : ℚ) + 1 / 2 - (k : ℤ)) := by norm_num
    rw [if_neg h1, if_neg h2]
  refine ⟨hmain, ?_⟩
  rw [hmain]
  split_ifs with h
  · exact h
  · omega

/-- Claim C8: building the table for the single delimiter range
`[0, 12]` with 3 layers per group and channel mapping `[10, 11, 12]`
assigns raw values 0-3 to channel 10, 4-7 to channel 11, 8-11 to
channel 12; raw value 12 keeps the unmapped sentinel -1 (half-open
upper bound), as does every other raw value in `[0, 4096)`. -/
theorem claim8_calibration_round_trip (k : ℤ) (h0 : 0 ≤ k) (h4 : k < 4096) :
    (buildGroup [((0 : ℚ), 12)] [10, 11, 12] 3 emptyADCDict).map
        (fun d => d k) =
      some (some (if k < 4 then 10 else if k < 8 then 11
        else if k < 12 then 12 else -1)) := by
  have hb : buildGroup [((0 : ℚ), 12)] [10, 11, 12] 3 emptyADCDict
      = some (assignRange (assignRange (assignRange emptyADCDict 10 0 4)
          11 4 4) 12 8 4) := by rfl
  rw [hb]
  simp only [Option.map_some']
  rw [assignRange_spec, assignRange_spec, assignRange_spec]
  unfold emptyADCDict
  split_ifs <;> first | rfl | omega

/-- Witness for C8 at raw value 5, which calibrates to channel 11. -/
theorem claim8_calibration_round_trip_witness :
    (buildGroup [((0 : ℚ), 12)] [10, 11, 12] 3 emptyADCDict).map
        (fun d => d 5) = some (some 11) := by
  have h := claim8_calibration_round_trip 5 (by decide) (by decide)
  simpa using h

/-- Counterexample to Claim C9 as stated: take a calibration table built
by the table builder in which the Wires channel for raw value 5 is 11
(non-zero).  Decoding `[0x40000000, 0x00000005, 0xC0000007]` under the
reduced layout leaves `wChADC_1 = 0`: channel 0 selects the 6-character
attribute `wADC_1`, which is not a grouped (8-character) attribute, so
no calibration lookup is performed and no channel field is written —
`wChADC_1` is not set to the calibrated channel for raw value 5. -/
theorem claim9_scenario_cex :
    buildGroup [((0 : ℚ), 12)] [10, 11, 12] 3 emptyADCDict = some exampleWires ∧
    tabGet exampleWiresTab Group.Wires 5 = some 11 ∧
    (cluster_data true exampleWiresTab [0x40000000, 0x00000005, 0xC0000007]).map
        (fun rows => rows.map fun r => r "wChADC_1") = some [(0 : ℤ)] :=
  ⟨rfl, by decide, by decide⟩

/-- Claim C9 as amended: decoding `[0x40000000 (Header, module 0),
0x00000005 (Data, channel 0, adc 5), 0xC0000007 (EndOfEvent, tof 7)]`
under the reduced layout produces exactly one row with `module = 0`,
`timeOfFlight = 7`, `wADC_1 = 5`, and every other field — including
`wChADC_1` and the calibrated channel column `wCh_1` — equal to 0,
whatever the calibration table: channel 0 is the non-grouped attribute
`wADC_1`, so no calibration lookup occurs. -/
theorem claim9_scenario (tab : ADCTab) :
    (cluster_data true tab [0x40000000, 0x00000005, 0xC0000007]).map
        (fun rows => rows.map (fun r =>
          (["Module", "ToF"] ++ reducedAttributes ++ reducedChannels).map r)) =
      some [[0, 7, 5, 0, 0, 0, 0, 0, 0, 0, 0, 0, 0, 0]] := by
  rfl

/-- Claim C10: the assembler distinguishes record kinds only by the
top-2-bit signature and never inspects the sub-signature bits: while an
event is open, a word carrying the Extended-Timestamp sub-signature
pattern `0x04800000` (top two bits `00`) with channel field `c` and adc
field `a` is processed exactly like the plain Data word with the same
fields. -/
theorem claim10_subsignature_ignored (b : Bool) (tab : ADCTab)
    (st : DecState) (c a : ℕ) (hopen : st.isOpen = true) (hc : c < 32)
    (ha : a < 2 ^ 14) :
    clusterStep (layoutAttributes b) tab st (DataExTs + c * 2 ^ 16 + a) =
      clusterStep (layoutAttributes b) tab st (c * 2 ^ 16 + a) := by
  have h1 : (DataExTs + c * 2 ^ 16 + a) &&& SignatureMask = Data := by
    rw [signature_data_iff]
    unfold DataExTs
    omega
  have h2 : (c * 2 ^ 16 + a) &&& SignatureMask = Data := by
    rw [signature_data_iff]
    omega
  rw [clusterStep_data_open _ tab st _ h1 hopen,
    clusterStep_data_open _ tab st _ h2 hopen,
    channel_field, channel_field, adc_field, adc_field]
  have h3 : (DataExTs + c * 2 ^ 16 + a) / 2 ^ 16 % 32 = c := by
    unfold DataExTs
    omega
  have h4 : (c * 2 ^ 16 + a) / 2 ^ 16 % 32 = c := by omega
  have h5 : (DataExTs + c * 2 ^ 16 + a) % 2 ^ 14 = a := by
    unfold DataExTs
    omega
  have h6 : (c * 2 ^ 16 + a) % 2 ^ 14 = a := by omega
  rw [h3, h4, h5, h6]

/-- Witness for C10: the Extended-Timestamp-flagged word with channel 3
and adc 77 acts on an open state exactly like the plain Data word with
those fields. -/
theorem claim10_subsignature_ignored_witness :
    clusterStep (layoutAttributes true) exampleTab exampleOpenState
        (DataExTs + 3 * 2 ^ 16 + 77) =
      clusterStep (layoutAttributes true) exampleTab exampleOpenState
        (3 * 2 ^ 16 + 77) :=
  claim10_subsignature_ignored true exampleTab exampleOpenState 3 77 rfl
    (by decide) (by decide)

end Cluster
